import Mathlib

/-!
Verification of the cluster-coordination module
(src/server/src/handlers/http/cluster/mod.rs) of the Parseable server.

The module's functions perform network and object-storage I/O. The embedding
makes those effects explicit: every outbound call's outcome is supplied by an
environment function, and the functions additionally return the trace of HTTP
calls they actually issued, so that properties about which nodes were
contacted can be stated.
-/

namespace Parseable

/-- Abstract stand-in for a transport-level (reqwest) error value. -/
structure ReqwestError where
  msg : String
deriving DecidableEq, Repr

/-- The error type of stream handlers (`StreamError` in the source). The
`Storage` variant models the `From<ObjectStorageError>` conversion applied by
the `?` operator on storage calls. -/
inductive StreamError where
  | Anyhow (msg : String)
  | Network (e : ReqwestError)
  | SerdeError (msg : String)
  | Custom (msg : String) (status : Nat)
  | Storage (msg : String)
deriving DecidableEq, Repr

/-- The error type used by the ingest/cluster handlers (`PostError`). -/
inductive PostError where
  | Invalid (msg : String)
  | NetworkError (e : ReqwestError)
  | CustomError (msg : String)
deriving DecidableEq, Repr

/-- A node descriptor (`IngesterMetadata`), restricted to the fields the
cluster module reads: the advertised address and the auth token. -/
structure IngesterMetadata where
  domain_name : String
  token : String
deriving DecidableEq, Repr

/-- Rust's `Default` for `IngesterMetadata`: empty strings. -/
instance : Inhabited IngesterMetadata := ⟨⟨"", ""⟩⟩

/-- Model of `StatusCode::is_success`: 2xx. -/
def statusIsSuccess (status : Nat) : Bool := 200 ≤ status && status < 300

/-- Outcome of one outbound HTTP request: either a transport error before any
response, or a response with a status code and a body text. -/
inductive HttpOutcome where
  | transportError (e : ReqwestError)
  | response (status : Nat) (body : String)
deriving DecidableEq, Repr

/-- The reqwest error produced by `res.error_for_status().unwrap_err()`. -/
def errorForStatus (status : Nat) : ReqwestError :=
  ⟨"HTTP status error " ++ toString status⟩

/-- Environment for `sync_streams_with_ingesters`: per-node outcomes of the
liveness probes, the forward create (PUT) call and the rollback (DELETE)
call. -/
structure SyncEnv where
  liveness : IngesterMetadata → Bool
  createResp : IngesterMetadata → HttpOutcome
  rollbackLiveness : IngesterMetadata → Bool
  rollbackResp : IngesterMetadata → HttpOutcome

/-- Trace events: an actual PUT (create) or DELETE (rollback) sent to a node.
A node skipped by the liveness probe produces no event. -/
inductive Event where
  | createAttempt (domain : String)
  | rollbackAttempt (domain : String)
deriving DecidableEq, Repr

/-- Model of `send_stream_sync_request`: skip (Ok) if the liveness probe fails,
otherwise PUT the stream; transport errors and non-2xx statuses are
`StreamError::Network` failures. Returns the trace of requests sent. -/
def send_stream_sync_request (env : SyncEnv) (ingester : IngesterMetadata) :
    List Event × Except StreamError Unit :=
  if !env.liveness ingester then ([], .ok ())
  else
    ([.createAttempt ingester.domain_name],
      match env.createResp ingester with
      | .transportError e => .error (.Network e)
      | .response status _ =>
        if !statusIsSuccess status then .error (.Network (errorForStatus status))
        else .ok ())

/-- Model of `send_stream_rollback_request`: skip (Ok) if the liveness probe fails,
otherwise DELETE the stream; a transport error is `StreamError::Network`, a
non-2xx response is `StreamError::Custom` with a rollback-specific message
and status 500. -/
def send_stream_rollback_request (env : SyncEnv) (ingester : IngesterMetadata) :
    List Event × Except StreamError Unit :=
  if !env.rollbackLiveness ingester then ([], .ok ())
  else
    ([.rollbackAttempt ingester.domain_name],
      match env.rollbackResp ingester with
      | .transportError e => .error (.Network e)
      | .response status body =>
        if !statusIsSuccess status then
          .error (.Custom ("failed to rollback stream creation: " ++
            ingester.domain_name ++ "\nResponse Returned: " ++ body) 500)
        else .ok ())

/-- The forward loop of `sync_streams_with_ingesters`: call each node in
order; on the first error set the `errored` flag and break. -/
def syncForward (env : SyncEnv) : List IngesterMetadata → List Event × Bool
  | [] => ([], false)
  | ing :: rest =>
    let r := send_stream_sync_request env ing
    match r.2 with
    | .ok _ =>
      let t := syncForward env rest
      (r.1 ++ t.1, t.2)
    | .error _ => (r.1, true)

/-- The rollback loop of `sync_streams_with_ingesters`: roll back each node in
order; the `?` operator propagates the first rollback failure, stopping the
loop. -/
def syncRollback (env : SyncEnv) : List IngesterMetadata → List Event × Except StreamError Unit
  | [] => ([], .ok ())
  | ing :: rest =>
    let r := send_stream_rollback_request env ing
    match r.2 with
    | .ok _ =>
      let t := syncRollback env rest
      (r.1 ++ t.1, t.2)
    | .error e => (r.1, .error e)

/-- The `StreamError::Custom` value returned after a completed rollback. -/
def syncFailureError : StreamError :=
  .Custom "Failed to sync stream with ingesters" 500

/-- Model of `sync_streams_with_ingesters`, given the already-resolved node list:
forward-sync every node, and on any forward failure roll back every node in
the original list, returning either the propagated rollback failure or the
fixed sync-failure error. -/
def sync_streams_with_ingesters (env : SyncEnv) (ingester_infos : List IngesterMetadata) :
    List Event × Except StreamError Unit :=
  let f := syncForward env ingester_infos
  if f.2 then
    let r := syncRollback env ingester_infos
    match r.2 with
    | .ok _ => (f.1 ++ r.1, .error syncFailureError)
    | .error e => (f.1 ++ r.1, .error e)
  else (f.1, .ok ())

/-- Whether an HTTP outcome is a success (a 2xx response). -/
def outcomeOk : HttpOutcome → Bool
  | .transportError _ => false
  | .response status _ => statusIsSuccess status

/-! ### Stats aggregation (`fetch_stats_from_ingesters`) -/

/-- The per-node counters inside an `ObjectStoreFormat` blob. -/
structure Stats where
  events : Nat
  ingestion : Nat
  storage : Nat
deriving DecidableEq, Repr

/-- The portion of an `ObjectStoreFormat` blob the aggregator reads. -/
structure ObjectStoreFormat where
  stats : Stats
deriving DecidableEq, Repr

/-- Rust `u64` addition (wrapping, as in a release build). -/
def u64add (a b : Nat) : Nat := (a + b) % 2 ^ 64

/-- One iteration of the aggregation loop: a parsed `ObjectStoreFormat`
(`some`) adds its counters to the accumulators, an unparseable blob (`none`)
is skipped. -/
def aggStep (acc : Nat × Nat × Nat) (ob : Option ObjectStoreFormat) : Nat × Nat × Nat :=
  match ob with
  | some stat =>
    (u64add acc.1 stat.stats.events, u64add acc.2.1 stat.stats.ingestion,
      u64add acc.2.2 stat.stats.storage)
  | none => acc

/-- The aggregation loop of `fetch_stats_from_ingesters`: sum the event,
ingestion and storage counters of the parseable blobs. -/
def aggregate (obs : List (Option ObjectStoreFormat)) : Nat × Nat × Nat :=
  obs.foldl aggStep (0, 0, 0)

/-- Model of `IngestionStats` from the utils module, as constructed by
`IngestionStats::new(count, size, format)`. -/
structure IngestionStats where
  count : Nat
  size : String
  format : String
deriving DecidableEq, Repr

/-- Model of `StorageStats` from the utils module, as constructed by
`StorageStats::new(size, format)`. -/
structure StorageStats where
  size : String
  format : String
deriving DecidableEq, Repr

/-- Modelled from the spec: `utils::QueriedStats` is not under src/. Its
constructor `QueriedStats::new(stream, time, ingestion, storage)` stores its
first argument as the stream-name field together with a timestamp and the
ingestion/storage stats; the spec's `ClusterStatsRecord` carries the same
totals and format strings. -/
structure QueriedStats where
  stream : String
  time : Nat
  ingestion : IngestionStats
  storage : StorageStats
deriving DecidableEq, Repr

/-- Model of `fetch_stats_from_ingesters`, with the storage listing's result passed in:
`obsRes` is the outcome of `get_objects` (each blob given as its parse
result). On a listing error the `?` operator propagates; otherwise the
counters of every parseable blob are summed and a single `QueriedStats` with
an empty stream name is returned. -/
def fetch_stats_from_ingesters (_stream_name : String) (now : Nat)
    (obsRes : Except String (List (Option ObjectStoreFormat))) :
    Except StreamError (List QueriedStats) :=
  match obsRes with
  | .error e => .error (.Storage e)
  | .ok obs =>
    let a := aggregate obs
    .ok [⟨"", now, ⟨a.1, toString a.2.1 ++ " Bytes", "json"⟩,
      ⟨toString a.2.2 ++ " Bytes", "parquet"⟩⟩]

/-! ### Node registry (`get_ingester_info`) -/

/-- Model of `get_ingester_info`, with the storage listing's result passed in: each
listed blob is given as its parse result (`some` a descriptor, `none` when
malformed); `serde_json::from_slice(x).unwrap_or_default()` turns a malformed
blob into the default descriptor. A listing error propagates via `?`. -/
def get_ingester_info (objsRes : Except String (List (Option IngesterMetadata))) :
    Except String (List IngesterMetadata) :=
  match objsRes with
  | .error e => .error e
  | .ok objs => .ok (objs.map (fun x => x.getD default))

/-! ### Metrics aggregation (`get_cluster_metrics`) -/

/-- Per-node outcome of the metrics fetch: the initial GET fails
(`unreachable`), reading the body text fails, parsing the exposition text
fails, or a sample set is obtained. -/
inductive MetricsOutcome where
  | unreachable
  | textFetchError (e : ReqwestError)
  | scrapeError (msg : String)
  | scraped (samples : List String)
deriving DecidableEq, Repr

/-- Model of `Metrics::from_prometheus_samples`: a sample set tagged with the
originating node's domain name. -/
structure Metrics where
  samples : List String
  domain_name : String
deriving DecidableEq, Repr

/-- Model of `get_cluster_metrics`, given the resolved node list: a node whose initial
GET fails is skipped with a warning; a body-read failure becomes
`PostError::NetworkError` and a parse failure `PostError::CustomError`, both
propagated by `?` and aborting the whole call. -/
def get_cluster_metrics (fetch : IngesterMetadata → MetricsOutcome) :
    List IngesterMetadata → Except PostError (List Metrics)
  | [] => .ok []
  | ing :: rest =>
    match fetch ing with
    | .unreachable => get_cluster_metrics fetch rest
    | .textFetchError e => .error (.NetworkError e)
    | .scrapeError m => .error (.CustomError m)
    | .scraped s =>
      match get_cluster_metrics fetch rest with
      | .ok l => .ok (⟨s, ing.domain_name⟩ :: l)
      | .error e => .error e

/-! ### Cluster info (`get_cluster_info`) -/

/-- A JSON field value in the model: a string, or anything that is not a
string. -/
inductive JsonField where
  | str (s : String)
  | nonStr
deriving DecidableEq, Repr

/-- A minimal JSON value model, flattened to one level: an object with named
fields, or any non-object value. This is enough to give
`.get("staging")` followed by `.as_str()` their exact semantics. -/
inductive JsonValue where
  | obj (fields : List (String × JsonField))
  | notObj
deriving DecidableEq, Repr

/-- Semantics of `serde_json::Value::get(key)` on the model: field lookup on an object,
`None` on anything else. -/
def jsonGet (v : JsonValue) (key : String) : Option JsonField :=
  match v with
  | .obj fields => (fields.find? (fun p => p.1 == key)).map Prod.snd
  | .notObj => none

/-- Semantics of `serde_json::Value::as_str()` on the model. -/
def jsonAsStr : JsonField → Option String
  | .str s => some s
  | .nonStr => none

/-- Per-node outcome of the about-endpoint GET: transport failure (with the
error's text and optional status), body-read failure, body that is not valid
JSON, or a parsed JSON body with the response status. -/
inductive AboutOutcome where
  | sendFailed (errText : String) (status : Option Nat)
  | bytesFailed (e : ReqwestError)
  | badJson (status : Nat) (msg : String)
  | json (status : Nat) (v : JsonValue)
deriving DecidableEq, Repr

/-- One `utils::ClusterInfo` entry. -/
structure ClusterInfo where
  domain_name : String
  reachable : Bool
  staging_path : String
  storage_path : String
  error : Option String
  status : Option String
deriving DecidableEq, Repr

/-- A computation that may panic (Rust `unwrap` on `None`) instead of
returning a value. -/
inductive PanicOr (α : Type) where
  | panicked (msg : String)
  | value (a : α)
deriving DecidableEq, Repr

/-- Model of `get_cluster_info`, given the resolved node list and the storage
endpoint: an unreachable node yields a reachable=false entry; a body-read
failure or invalid-JSON body aborts with a typed error via `?`; a JSON body
is dereferenced with `.get("staging").unwrap().as_str().unwrap()`, which
panics when the field is absent or not a string. -/
def get_cluster_info (about : IngesterMetadata → AboutOutcome) (endpoint : String) :
    List IngesterMetadata → PanicOr (Except StreamError (List ClusterInfo))
  | [] => .value (.ok [])
  | ing :: rest =>
    match about ing with
    | .sendFailed errText st =>
      match get_cluster_info about endpoint rest with
      | .value (.ok l) =>
        .value (.ok (⟨ing.domain_name, false, "", endpoint, some errText,
          st.map toString⟩ :: l))
      | r => r
    | .bytesFailed e => .value (.error (.Network e))
    | .badJson _ msg => .value (.error (.SerdeError msg))
    | .json st v =>
      match jsonGet v "staging" with
      | none => .panicked "called Option unwrap on a None value"
      | some fv =>
        match jsonAsStr fv with
        | none => .panicked "called Option unwrap on a None value"
        | some sp =>
          match get_cluster_info about endpoint rest with
          | .value (.ok l) =>
            .value (.ok (⟨ing.domain_name, true, sp, endpoint, none,
              some (toString st)⟩ :: l))
          | r => r

/-! ### Node removal (`remove_ingester`) -/

/-- The error type of the object store's delete operation
(`ObjectStorageError`), restricted to the distinction the handler makes:
`IoError` versus anything else. -/
inductive ObjectStorageError where
  | IoError (msg : String)
  | Other (msg : String)
deriving DecidableEq, Repr

/-- The `Display` text of an `ObjectStorageError`. -/
def ObjectStorageError.display : ObjectStorageError → String
  | .IoError m => m
  | .Other m => m

/-- Outcome of `try_delete_ingester_meta`. -/
inductive DeleteOutcome where
  | deleted
  | failed (e : ObjectStorageError)
deriving DecidableEq, Repr

/-- Model of `remove_ingester`, with its collaborators passed in: `live` is the
liveness probe, `toUrl` is `to_url_string`, `metaPath` derives the metadata
blob's path from the URL, `tryDelete` is the store's delete. A live node is
refused with `PostError::Invalid` before any delete; otherwise the delete is
attempted and every outcome is folded into a 200-OK message: success,
`IoError` mapped to a not-found message, and any other error to an
error-report message. The returned Bool records whether the delete call was
issued. -/
def remove_ingester (live : String → Bool) (toUrl : String → String)
    (metaPath : String → String) (tryDelete : String → DeleteOutcome)
    (domain_name : String) : Bool × Except PostError (String × Nat) :=
  let d := toUrl domain_name
  if live d then (false, .error (.Invalid "Node Online"))
  else
    let msg :=
      match tryDelete (metaPath d) with
      | .deleted => "Node " ++ d ++ " Removed Successfully"
      | .failed (.IoError _) => "Node " ++ d ++ " Not Found"
      | .failed e => "Error Removing Node " ++ d ++ "\n Reason: " ++ e.display
    (true, .ok (msg, 200))

/-! ### Helper lemmas -/

/-- The stats carried by the parseable blobs of a listing, in order. -/
def statsOf (obs : List (Option ObjectStoreFormat)) : List Stats :=
  obs.filterMap (fun o => o.map ObjectStoreFormat.stats)

lemma aggregate_foldl (obs : List (Option ObjectStoreFormat)) :
    ∀ a b c : Nat,
      List.foldl aggStep (a % 2 ^ 64, b % 2 ^ 64, c % 2 ^ 64) obs =
        ((a + (List.map Stats.events (statsOf obs)).sum) % 2 ^ 64,
          (b + (List.map Stats.ingestion (statsOf obs)).sum) % 2 ^ 64,
          (c + (List.map Stats.storage (statsOf obs)).sum) % 2 ^ 64) := by
  induction obs with
  | nil => intro a b c; simp [statsOf]
  | cons ob t ih =>
    intro a b c
    cases ob with
    | none => simpa [statsOf, aggStep] using ih a b c
    | some s =>
      simp only [List.foldl_cons, aggStep, u64add, statsOf, List.filterMap_cons,
        Option.map_some', List.map_cons, List.sum_cons, Nat.mod_add_mod]
      rw [ih (a + s.stats.events) (b + s.stats.ingestion) (c + s.stats.storage)]
      simp [statsOf, Nat.add_assoc]

lemma aggregate_eq (obs : List (Option ObjectStoreFormat)) :
    aggregate obs =
      ((List.map Stats.events (statsOf obs)).sum % 2 ^ 64,
        (List.map Stats.ingestion (statsOf obs)).sum % 2 ^ 64,
        (List.map Stats.storage (statsOf obs)).sum % 2 ^ 64) := by
  have h := aggregate_foldl obs 0 0 0
  simpa [aggregate] using h

lemma aggregate_perm {l l' : List (Option ObjectStoreFormat)} (h : l.Perm l') :
    aggregate l = aggregate l' := by
  have hs : (statsOf l).Perm (statsOf l') := h.filterMap _
  rw [aggregate_eq, aggregate_eq, (hs.map Stats.events).sum_eq,
    (hs.map Stats.ingestion).sum_eq, (hs.map Stats.storage).sum_eq]

lemma aggregate_drop_none (l1 l2 : List (Option ObjectStoreFormat)) :
    aggregate (l1 ++ none :: l2) = aggregate (l1 ++ l2) := by
  rw [aggregate_eq, aggregate_eq]
  simp [statsOf, List.filterMap_append]

/-- Finite well-formed/malformed split of an option listing. -/
lemma length_filter_some_none {α : Type} (l : List (Option α)) :
    (l.filter (fun o => o.isSome)).length + (l.filter (fun o => o.isNone)).length =
      l.length := by
  induction l with
  | nil => simp
  | cons o t ih => cases o <;> simp [List.filter_cons] <;> omega

end Parseable

deriving instance DecidableEq for Except

namespace Parseable

/-! ### Claims -/

/-- Claim C10: every successful `fetch_stats_from_ingesters` call returns a
sequence with exactly one aggregate stats record, and that record's
stream-name field is the empty string rather than the requested stream-name
argument (the result does not depend on the stream-name argument at all). -/
theorem C10_stats_single_record_empty_stream (sn sn' : String) (now : Nat)
    (obs : List (Option ObjectStoreFormat)) :
    ∃ q, fetch_stats_from_ingesters sn now (.ok obs) = .ok [q] ∧ q.stream = "" ∧
      fetch_stats_from_ingesters sn now (.ok obs) =
        fetch_stats_from_ingesters sn' now (.ok obs) :=
  ⟨_, rfl, rfl, rfl⟩

/-- Claim C8: the stats totals of `fetch_stats_from_ingesters` are invariant
under permutation of the listed blobs, a corrupted (unparseable) blob inserted
anywhere among the valid ones leaves the result exactly the sum of the valid
ones, and the call still succeeds with its single record. -/
theorem C8_stats_aggregation_perm_invariant (sn : String) (now : Nat)
    (l l' l1 l2 : List (Option ObjectStoreFormat)) (hp : l.Perm l') :
    fetch_stats_from_ingesters sn now (.ok l) =
      fetch_stats_from_ingesters sn now (.ok l') ∧
    fetch_stats_from_ingesters sn now (.ok (l1 ++ none :: l2)) =
      fetch_stats_from_ingesters sn now (.ok (l1 ++ l2)) ∧
    ∃ q, fetch_stats_from_ingesters sn now (.ok (l1 ++ none :: l2)) = .ok [q] := by
  refine ⟨?_, ?_, ⟨_, rfl⟩⟩
  · simp only [fetch_stats_from_ingesters, aggregate_perm hp]
  · simp only [fetch_stats_from_ingesters, aggregate_drop_none]

/-- Witness for C8 at a concrete permutation and a concrete corrupted blob. -/
theorem C8_stats_aggregation_perm_invariant_witness :
    fetch_stats_from_ingesters "s1" 7 (.ok [some ⟨⟨1, 2, 3⟩⟩, none]) =
      fetch_stats_from_ingesters "s1" 7 (.ok [none, some ⟨⟨1, 2, 3⟩⟩]) ∧
    fetch_stats_from_ingesters "s1" 7 (.ok ([some ⟨⟨1, 2, 3⟩⟩] ++ none :: [some ⟨⟨4, 5, 6⟩⟩])) =
      fetch_stats_from_ingesters "s1" 7 (.ok ([some ⟨⟨1, 2, 3⟩⟩] ++ [some ⟨⟨4, 5, 6⟩⟩])) ∧
    ∃ q, fetch_stats_from_ingesters "s1" 7
      (.ok ([some ⟨⟨1, 2, 3⟩⟩] ++ none :: [some ⟨⟨4, 5, 6⟩⟩])) = .ok [q] :=
  C8_stats_aggregation_perm_invariant "s1" 7 [some ⟨⟨1, 2, 3⟩⟩, none]
    [none, some ⟨⟨1, 2, 3⟩⟩] [some ⟨⟨1, 2, 3⟩⟩] [some ⟨⟨4, 5, 6⟩⟩] (by decide)

/-- Claim C2, counterexample: with one well-formed and one malformed blob
(N = 1, M = 1) the registry listing returns two descriptors, not exactly
N = 1 — the malformed blob becomes a default descriptor instead of being
dropped. -/
theorem C2_counterexample :
    get_ingester_info (.ok [some ⟨"http://a/", "t"⟩, none]) =
      .ok [⟨"http://a/", "t"⟩, ⟨"", ""⟩] ∧
    ([(⟨"http://a/", "t"⟩ : IngesterMetadata), ⟨"", ""⟩]).length ≠ 1 :=
  ⟨rfl, by decide⟩

/-- Claim C2 as amended: for a listing of N well-formed and M malformed node
blobs, `get_ingester_info` returns exactly N + M descriptors — each malformed
blob degrades to the default descriptor rather than being dropped — the call
never aborts because of malformed entries, and every well-formed blob's
descriptor is in the result. -/
theorem C2_amended_registry_length (objs : List (Option IngesterMetadata)) :
    ∃ l, get_ingester_info (.ok objs) = .ok l ∧
      l.length = (objs.filter (fun o => o.isSome)).length +
        (objs.filter (fun o => o.isNone)).length ∧
      ∀ m, some m ∈ objs → m ∈ l := by
  have h : get_ingester_info (.ok objs) = .ok (objs.map (fun x => x.getD default)) := rfl
  refine ⟨objs.map (fun x => x.getD default), h, ?_, ?_⟩
  · rw [List.length_map, length_filter_some_none]
  · intro m hm
    exact List.mem_map.mpr ⟨some m, hm, rfl⟩

/-- Claim C5, counterexample: with the target unreachable and the storage
delete failing with an error other than not-found, `remove_ingester` still
returns a success result (a 200-OK message embedding the error text), not an
error result. -/
theorem C5_counterexample :
    (remove_ingester (fun _ => false) id id (fun _ => .failed (.Other "disk failure"))
        "http://n1/").2 =
      .ok ("Error Removing Node http://n1/\n Reason: disk failure", 200) ∧
    (remove_ingester (fun _ => false) id id (fun _ => .failed (.Other "disk failure"))
        "http://n1/").2.isOk = true := ⟨rfl, rfl⟩

/-- Claim C5 as amended: when the target is unreachable, a storage-delete
failure other than `IoError` is reported inside the 200-OK confirmation
message ("Error Removing Node ...") rather than as an error result, while an
`IoError` (delete-not-found) is reported as a 200-OK "Not Found" message —
in both cases the call returns success. -/
theorem C5_amended_remove_node_errors_in_message (live : String → Bool)
    (toUrl metaPath : String → String) (tryDelete tryDelete2 : String → DeleteOutcome)
    (d m m2 : String)
    (h1 : live (toUrl d) = false)
    (h2 : tryDelete (metaPath (toUrl d)) = .failed (.Other m))
    (h3 : tryDelete2 (metaPath (toUrl d)) = .failed (.IoError m2)) :
    remove_ingester live toUrl metaPath tryDelete d =
      (true, .ok ("Error Removing Node " ++ toUrl d ++ "\n Reason: " ++ m, 200)) ∧
    remove_ingester live toUrl metaPath tryDelete2 d =
      (true, .ok ("Node " ++ toUrl d ++ " Not Found", 200)) := by
  constructor <;> simp [remove_ingester, h1, h2, h3, ObjectStorageError.display]

/-- Witness for C5's amended theorem at concrete collaborators. -/
theorem C5_amended_remove_node_errors_in_message_witness :
    remove_ingester (fun _ => false) id id (fun _ => .failed (.Other "boom")) "n" =
      (true, .ok ("Error Removing Node " ++ "n" ++ "\n Reason: " ++ "boom", 200)) ∧
    remove_ingester (fun _ => false) id id (fun _ => .failed (.IoError "nf")) "n" =
      (true, .ok ("Node " ++ "n" ++ " Not Found", 200)) :=
  C5_amended_remove_node_errors_in_message (fun _ => false) id id
    (fun _ => .failed (.Other "boom")) (fun _ => .failed (.IoError "nf"))
    "n" "boom" "nf" rfl rfl rfl

/-- Claim C7: `remove_ingester` refuses a live target with an error before any
delete call is issued, and for an unreachable target it returns a 200-OK
success whatever the delete's outcome — in particular when the metadata blob
is already absent (idempotent removal). -/
theorem C7_remove_node_liveness_gate (live : String → Bool)
    (toUrl metaPath : String → String) (tryDelete : String → DeleteOutcome) (d : String) :
    (live (toUrl d) = true →
      remove_ingester live toUrl metaPath tryDelete d =
        (false, .error (.Invalid "Node Online"))) ∧
    (live (toUrl d) = false →
      ∃ msg, remove_ingester live toUrl metaPath tryDelete d = (true, .ok (msg, 200))) := by
  constructor
  · intro h
    simp [remove_ingester, h]
  · intro h
    refine ⟨match tryDelete (metaPath (toUrl d)) with
      | .deleted => "Node " ++ toUrl d ++ " Removed Successfully"
      | .failed (.IoError _) => "Node " ++ toUrl d ++ " Not Found"
      | .failed e => "Error Removing Node " ++ toUrl d ++ "\n Reason: " ++ e.display, ?_⟩
    simp only [remove_ingester, h, if_false, Bool.false_eq_true]

/-- Witness for C7 at concrete collaborators: a live node is refused with no
delete, and an unreachable node whose blob is already gone removes
successfully. -/
theorem C7_remove_node_liveness_gate_witness :
    remove_ingester (fun _ => true) id id (fun _ => .deleted) "n" =
      (false, .error (.Invalid "Node Online")) ∧
    ∃ msg, remove_ingester (fun _ => false) id id (fun _ => .failed (.IoError "absent")) "n" =
      (true, .ok (msg, 200)) :=
  ⟨(C7_remove_node_liveness_gate (fun _ => true) id id (fun _ => .deleted) "n").1 rfl,
    (C7_remove_node_liveness_gate (fun _ => false) id id
      (fun _ => .failed (.IoError "absent")) "n").2 rfl⟩

/-- A node from which the metrics fetch either never got a response
(skipped) or produced a parsed sample set. -/
def metricsNodeOk (fetch : IngesterMetadata → MetricsOutcome) (i : IngesterMetadata) : Prop :=
  fetch i = .unreachable ∨ ∃ s, fetch i = .scraped s

/-- The `PostError` with which a node's metrics outcome aborts the whole
call, if any: a body-read failure aborts with `PostError::NetworkError`, a
parse failure with `PostError::CustomError`; the other outcomes do not
abort. -/
def metricsAbortError : MetricsOutcome → Option PostError
  | .textFetchError e => some (.NetworkError e)
  | .scrapeError m => some (.CustomError m)
  | .unreachable => none
  | .scraped _ => none

/-- The sample sets of the reachable, successfully parsed nodes, in order. -/
def metricsOf (fetch : IngesterMetadata → MetricsOutcome)
    (nodes : List IngesterMetadata) : List Metrics :=
  nodes.filterMap (fun ing =>
    match fetch ing with
    | .scraped s => some ⟨s, ing.domain_name⟩
    | _ => none)

lemma metricsOf_cons_skip {fetch : IngesterMetadata → MetricsOutcome}
    {i : IngesterMetadata} (t : List IngesterMetadata) (h : fetch i = .unreachable) :
    metricsOf fetch (i :: t) = metricsOf fetch t := by
  simp [metricsOf, h]

lemma metricsOf_cons_scraped {fetch : IngesterMetadata → MetricsOutcome}
    {i : IngesterMetadata} {s : List String} (t : List IngesterMetadata)
    (h : fetch i = .scraped s) :
    metricsOf fetch (i :: t) = ⟨s, i.domain_name⟩ :: metricsOf fetch t := by
  simp [metricsOf, h]

lemma get_cluster_metrics_all_ok (fetch : IngesterMetadata → MetricsOutcome)
    (nodes : List IngesterMetadata) (h : ∀ i ∈ nodes, metricsNodeOk fetch i) :
    get_cluster_metrics fetch nodes = .ok (metricsOf fetch nodes) := by
  induction nodes with
  | nil => rfl
  | cons i t ih =>
    have hi := h i (List.mem_cons_self i t)
    have ht := ih fun j hj => h j (List.mem_cons_of_mem i hj)
    rcases hi with hi | ⟨s, hi⟩
    · rw [get_cluster_metrics, hi, ht, metricsOf_cons_skip t hi]
    · rw [get_cluster_metrics, hi, ht, metricsOf_cons_scraped t hi]

lemma get_cluster_metrics_propagates (fetch : IngesterMetadata → MetricsOutcome)
    (pre rest : List IngesterMetadata) (e : PostError)
    (h : ∀ i ∈ pre, metricsNodeOk fetch i)
    (hrest : get_cluster_metrics fetch rest = .error e) :
    get_cluster_metrics fetch (pre ++ rest) = .error e := by
  induction pre with
  | nil => simpa using hrest
  | cons i t ih =>
    have hi := h i (List.mem_cons_self i t)
    have ht := ih fun j hj => h j (List.mem_cons_of_mem i hj)
    rcases hi with hi | ⟨s, hi⟩ <;> simp [get_cluster_metrics, hi, ht]

/-- Claim C3, counterexample: a single node whose metrics text fails to parse
makes the whole `get_cluster_metrics` call return an error — the node is not
omitted and the call does not succeed. -/
theorem C3_counterexample :
    get_cluster_metrics (fun _ => .scrapeError "bad exposition text")
        [⟨"http://n1/", "t"⟩] =
      .error (.CustomError "bad exposition text") := rfl

/-- Claim C3 as amended: when every node's metrics fetch either fails at the
initial request (transport error on send) or yields a parsed sample set, the
call succeeds and returns exactly the sample sets of the successfully
scraped nodes — every transport-failed node is omitted, no placeholder entry
exists (each returned entry originates from a scraped node and carries its
domain name), and the length is at most the node count; but once processing
reaches a node whose body read or metrics parse failed, the whole call
aborts with the corresponding typed error (`PostError::NetworkError` or
`PostError::CustomError`) instead of omitting that node. -/
theorem C3_amended_metrics_skip_only_unreachable
    (fetch : IngesterMetadata → MetricsOutcome)
    (nodes pre rest : List IngesterMetadata) (ing : IngesterMetadata) (err : PostError)
    (hok : ∀ i ∈ nodes, metricsNodeOk fetch i)
    (hpre : ∀ i ∈ pre, metricsNodeOk fetch i)
    (hbad : metricsAbortError (fetch ing) = some err) :
    (get_cluster_metrics fetch nodes = .ok (metricsOf fetch nodes) ∧
      (metricsOf fetch nodes).length ≤ nodes.length ∧
      ∀ M ∈ metricsOf fetch nodes, ∃ i ∈ nodes, ∃ s,
        fetch i = .scraped s ∧ M = ⟨s, i.domain_name⟩) ∧
    get_cluster_metrics fetch (pre ++ ing :: rest) = .error err := by
  refine ⟨⟨get_cluster_metrics_all_ok fetch nodes hok,
    List.length_filterMap_le _ _, ?_⟩, ?_⟩
  · intro M hM
    obtain ⟨i, hi, hfi⟩ := List.mem_filterMap.mp hM
    refine ⟨i, hi, ?_⟩
    cases hf : fetch i with
    | unreachable => rw [hf] at hfi; simp at hfi
    | textFetchError e => rw [hf] at hfi; simp at hfi
    | scrapeError m => rw [hf] at hfi; simp at hfi
    | scraped s =>
      rw [hf] at hfi
      simp at hfi
      exact ⟨s, rfl, hfi.symm⟩
  · refine get_cluster_metrics_propagates fetch pre (ing :: rest) _ hpre ?_
    cases hf : fetch ing with
    | unreachable => rw [hf] at hbad; simp [metricsAbortError] at hbad
    | scraped s => rw [hf] at hbad; simp [metricsAbortError] at hbad
    | textFetchError e =>
      rw [hf] at hbad
      simp only [metricsAbortError, Option.some.injEq] at hbad
      subst hbad
      simp [get_cluster_metrics, hf]
    | scrapeError m =>
      rw [hf] at hbad
      simp only [metricsAbortError, Option.some.injEq] at hbad
      subst hbad
      simp [get_cluster_metrics, hf]

/-- The metrics environment of C3's witness: one node scrapes successfully,
one is unreachable on send, any other node fails to parse. -/
def fetchC3w : IngesterMetadata → MetricsOutcome := fun i =>
  if i.domain_name == "http://up/" then .scraped ["metric 1"]
  else if i.domain_name == "http://down/" then .unreachable
  else .scrapeError "bad text"

/-- Witness for C3's amended theorem: the unreachable node is omitted from
the successful result (which is exactly the scraped node's sample set), and
a node with unparseable metrics text aborts the call. -/
theorem C3_amended_metrics_skip_only_unreachable_witness :
    get_cluster_metrics fetchC3w [⟨"http://up/", "t"⟩, ⟨"http://down/", "t"⟩] =
      .ok (metricsOf fetchC3w [⟨"http://up/", "t"⟩, ⟨"http://down/", "t"⟩]) ∧
    metricsOf fetchC3w [⟨"http://up/", "t"⟩, ⟨"http://down/", "t"⟩] =
      [⟨["metric 1"], "http://up/"⟩] ∧
    get_cluster_metrics fetchC3w ([⟨"http://up/", "t"⟩] ++ ⟨"http://bad/", "t"⟩ :: []) =
      .error (.CustomError "bad text") :=
  have h := C3_amended_metrics_skip_only_unreachable fetchC3w
    [⟨"http://up/", "t"⟩, ⟨"http://down/", "t"⟩] [⟨"http://up/", "t"⟩] []
    ⟨"http://bad/", "t"⟩ (.CustomError "bad text")
    (by
      intro i hi
      simp at hi
      rcases hi with h | h <;> subst h
      · exact Or.inr ⟨["metric 1"], rfl⟩
      · exact Or.inl rfl)
    (by
      intro i hi
      simp at hi
      subst hi
      exact Or.inr ⟨["metric 1"], rfl⟩)
    rfl
  ⟨h.1.1, rfl, h.2⟩

/-- A node whose about-call produces a `ClusterInfo` entry (transport failure,
or a JSON body carrying a string `staging` field), so that processing
continues past it. -/
def aboutProducesEntry (about : IngesterMetadata → AboutOutcome)
    (i : IngesterMetadata) : Prop :=
  (∃ t st, about i = .sendFailed t st) ∨
  (∃ st v fv s, about i = .json st v ∧ jsonGet v "staging" = some fv ∧
    jsonAsStr fv = some s)

lemma get_cluster_info_propagates_panic (about : IngesterMetadata → AboutOutcome)
    (endpoint : String) (pre rest : List IngesterMetadata) (m : String)
    (h : ∀ i ∈ pre, aboutProducesEntry about i)
    (hrest : get_cluster_info about endpoint rest = .panicked m) :
    get_cluster_info about endpoint (pre ++ rest) = .panicked m := by
  induction pre with
  | nil => simpa using hrest
  | cons i t ih =>
    have hi := h i (List.mem_cons_self i t)
    have ht := ih fun j hj => h j (List.mem_cons_of_mem i hj)
    rcases hi with ⟨tx, st, hi⟩ | ⟨st, v, fv, s, hi, hget, hstr⟩
    · simp [get_cluster_info, hi, ht]
    · simp [get_cluster_info, hi, hget, hstr, ht]

/-- Claim C4, counterexample: a reachable node whose JSON body lacks a
`staging` field makes `get_cluster_info` panic (an unchecked `unwrap` on
`None`) instead of returning a typed parse error. -/
theorem C4_counterexample :
    get_cluster_info (fun _ => .json 200 (.obj [("version", .str "v1")])) "ep"
        [⟨"http://n1/", "t"⟩] =
      .panicked "called Option unwrap on a None value" := rfl

/-- Claim C4 as amended: for a node whose about-endpoint response is
reachable and parses as JSON but lacks a `staging` field or has a non-string
`staging` value, `get_cluster_info` panics on the unchecked unwrap once
processing reaches that node — it neither returns a typed error nor skips the
node (a body that is not valid JSON, by contrast, aborts with the typed
`SerdeError`). -/
theorem C4_amended_missing_staging_panics (about : IngesterMetadata → AboutOutcome)
    (endpoint : String) (pre rest : List IngesterMetadata) (ing : IngesterMetadata)
    (st : Nat) (v : JsonValue)
    (hpre : ∀ i ∈ pre, aboutProducesEntry about i)
    (hing : about ing = .json st v)
    (hbad : jsonGet v "staging" = none ∨
      ∃ fv, jsonGet v "staging" = some fv ∧ jsonAsStr fv = none) :
    get_cluster_info about endpoint (pre ++ ing :: rest) =
      .panicked "called Option unwrap on a None value" := by
  refine get_cluster_info_propagates_panic about endpoint pre (ing :: rest) _ hpre ?_
  rcases hbad with hget | ⟨fv, hget, hstr⟩
  · simp [get_cluster_info, hing, hget]
  · simp [get_cluster_info, hing, hget, hstr]

/-- Witness for C4's amended theorem: a healthy node first, then a node whose
about-body has no `staging` field. -/
theorem C4_amended_missing_staging_panics_witness :
    get_cluster_info
        (fun i => if i.domain_name == "http://ok/"
          then .json 200 (.obj [("staging", .str "/tmp/staging")])
          else .json 200 (.obj []))
        "ep" ([⟨"http://ok/", "t"⟩] ++ ⟨"http://bad/", "t"⟩ :: []) =
      .panicked "called Option unwrap on a None value" :=
  C4_amended_missing_staging_panics
    (fun i => if i.domain_name == "http://ok/"
      then .json 200 (.obj [("staging", .str "/tmp/staging")])
      else .json 200 (.obj []))
    "ep" [⟨"http://ok/", "t"⟩] [] ⟨"http://bad/", "t"⟩ 200 (.obj [])
    (by
      intro i hi
      simp at hi
      subst hi
      exact Or.inr ⟨200, .obj [("staging", .str "/tmp/staging")], .str "/tmp/staging",
        "/tmp/staging", rfl, rfl, rfl⟩)
    rfl
    (Or.inl rfl)

/-! ### Sync-coordinator lemmas -/

lemma send_sync_skip {env : SyncEnv} {i : IngesterMetadata}
    (h : env.liveness i = false) :
    send_stream_sync_request env i = ([], .ok ()) := by
  simp [send_stream_sync_request, h]

lemma send_sync_ok {env : SyncEnv} {i : IngesterMetadata}
    (hl : env.liveness i = true) (hok : outcomeOk (env.createResp i) = true) :
    send_stream_sync_request env i = ([.createAttempt i.domain_name], .ok ()) := by
  rw [send_stream_sync_request, hl]
  cases hc : env.createResp i with
  | transportError e => rw [hc] at hok; simp [outcomeOk] at hok
  | response status body =>
    rw [hc] at hok
    simp only [outcomeOk] at hok
    simp [hok]

lemma send_sync_err {env : SyncEnv} {i : IngesterMetadata}
    (hl : env.liveness i = true) (hbad : outcomeOk (env.createResp i) = false) :
    ∃ e, send_stream_sync_request env i = ([.createAttempt i.domain_name], .error e) := by
  rw [send_stream_sync_request, hl]
  cases hc : env.createResp i with
  | transportError e => exact ⟨.Network e, by simp⟩
  | response status body =>
    rw [hc] at hbad
    simp only [outcomeOk] at hbad
    exact ⟨.Network (errorForStatus status), by simp [hbad]⟩

lemma send_rollback_ok {env : SyncEnv} {i : IngesterMetadata}
    (hl : env.rollbackLiveness i = true) (hok : outcomeOk (env.rollbackResp i) = true) :
    send_stream_rollback_request env i = ([.rollbackAttempt i.domain_name], .ok ()) := by
  rw [send_stream_rollback_request, hl]
  cases hc : env.rollbackResp i with
  | transportError e => rw [hc] at hok; simp [outcomeOk] at hok
  | response status body =>
    rw [hc] at hok
    simp only [outcomeOk] at hok
    simp [hok]

/-- The events of any forward-sync call form a sublist of a singleton create
attempt; in particular no rollback attempt ever appears in the forward
phase. -/
lemma send_sync_events (env : SyncEnv) (i : IngesterMetadata) :
    (send_stream_sync_request env i).1 = [] ∨
    (send_stream_sync_request env i).1 = [.createAttempt i.domain_name] := by
  rw [send_stream_sync_request]
  cases h : env.liveness i <;> simp

lemma syncForward_no_rollback_events (env : SyncEnv) (nodes : List IngesterMetadata)
    (d : String) : Event.rollbackAttempt d ∉ (syncForward env nodes).1 := by
  induction nodes with
  | nil => simp [syncForward]
  | cons i t ih =>
    rw [syncForward]
    rcases send_sync_events env i with h | h <;>
      cases hr : (send_stream_sync_request env i).2 <;> simp [h, ih]

lemma syncForward_all_ok (env : SyncEnv) (nodes : List IngesterMetadata)
    (h : ∀ i ∈ nodes, env.liveness i = false ∨ outcomeOk (env.createResp i) = true) :
    (syncForward env nodes).2 = false := by
  induction nodes with
  | nil => rfl
  | cons i t ih =>
    have hi := h i (List.mem_cons_self i t)
    have ht := ih fun j hj => h j (List.mem_cons_of_mem i hj)
    rw [syncForward]
    rcases hi with hi | hi
    · rw [send_sync_skip hi]
      simpa using ht
    · cases hl : env.liveness i
      · rw [send_sync_skip hl]
        simpa using ht
      · rw [send_sync_ok hl hi]
        simpa using ht

/-- Claim C6: whenever every node's create call either succeeds or the node
is skipped because its liveness probe fails, `sync_streams_with_ingesters`
returns success and issues no rollback call at all — an unreachable node
never counts as a forward-sync failure. -/
theorem C6_sync_success_no_rollback (env : SyncEnv) (nodes : List IngesterMetadata)
    (h : ∀ i ∈ nodes, env.liveness i = false ∨ outcomeOk (env.createResp i) = true) :
    (sync_streams_with_ingesters env nodes).2 = .ok () ∧
    ∀ d, Event.rollbackAttempt d ∉ (sync_streams_with_ingesters env nodes).1 := by
  have hf := syncForward_all_ok env nodes h
  constructor
  · simp [sync_streams_with_ingesters, hf]
  · intro d
    simp only [sync_streams_with_ingesters, hf]
    exact syncForward_no_rollback_events env nodes d

/-- Witness for C6: one live node whose create succeeds plus one node that
is unreachable; the sync succeeds and node "http://down/" gets no rollback. -/
theorem C6_sync_success_no_rollback_witness :
    (sync_streams_with_ingesters
        ⟨fun i => i.domain_name == "http://up/", fun _ => .response 200 "",
          fun _ => true, fun _ => .response 200 ""⟩
        [⟨"http://up/", "t"⟩, ⟨"http://down/", "t"⟩]).2 = .ok () ∧
    Event.rollbackAttempt "http://down/" ∉
      (sync_streams_with_ingesters
        ⟨fun i => i.domain_name == "http://up/", fun _ => .response 200 "",
          fun _ => true, fun _ => .response 200 ""⟩
        [⟨"http://up/", "t"⟩, ⟨"http://down/", "t"⟩]).1 :=
  ⟨(C6_sync_success_no_rollback _ _ (by decide)).1,
    (C6_sync_success_no_rollback
      ⟨fun i => i.domain_name == "http://up/", fun _ => .response 200 "",
        fun _ => true, fun _ => .response 200 ""⟩
      [⟨"http://up/", "t"⟩, ⟨"http://down/", "t"⟩] (by decide)).2 "http://down/"⟩

/-- Environment for C1's counterexample: all three nodes pass every liveness
probe, node 2's create call fails, and node 1's rollback call fails. -/
def envC1 : SyncEnv :=
  ⟨fun _ => true,
    fun i => if i.domain_name == "http://n2/" then .response 500 "" else .response 200 "",
    fun _ => true,
    fun i => if i.domain_name == "http://n1/" then .response 500 "cannot delete"
      else .response 200 ""⟩

/-- Claim C1, counterexample: with three reachable nodes and node 2's create
call failing, a failing rollback on node 1 stops the rollback loop, so nodes
2 and 3 never receive a rollback call — the claim's "rollback to all 3
nodes" does not hold for every such run (the call still returns an error). -/
theorem C1_counterexample :
    (sync_streams_with_ingesters envC1
        [⟨"http://n1/", ""⟩, ⟨"http://n2/", ""⟩, ⟨"http://n3/", ""⟩]).1 =
      [.createAttempt "http://n1/", .createAttempt "http://n2/",
        .rollbackAttempt "http://n1/"] ∧
    Event.rollbackAttempt "http://n3/" ∉
      (sync_streams_with_ingesters envC1
        [⟨"http://n1/", ""⟩, ⟨"http://n2/", ""⟩, ⟨"http://n3/", ""⟩]).1 ∧
    (sync_streams_with_ingesters envC1
        [⟨"http://n1/", ""⟩, ⟨"http://n2/", ""⟩, ⟨"http://n3/", ""⟩]).2 ≠ .ok () := by
  decide

/-- Claim C1 as amended: with three reachable nodes, node 2's create call
failing, and every rollback call succeeding, the coordinator attempts the
create on node 1 and node 2 but not node 3, then issues a rollback to all 3
nodes in the original order, and returns the sync-failure error — never
success (if some rollback also fails, the loop stops there and that failure
is returned instead, still an error). -/
theorem C1_amended_sync_failure_rolls_back_all (env : SyncEnv)
    (n1 n2 n3 : IngesterMetadata)
    (hl1 : env.liveness n1 = true) (hl2 : env.liveness n2 = true)
    (hrl1 : env.rollbackLiveness n1 = true) (hrl2 : env.rollbackLiveness n2 = true)
    (hrl3 : env.rollbackLiveness n3 = true)
    (hc1 : outcomeOk (env.createResp n1) = true)
    (hc2 : outcomeOk (env.createResp n2) = false)
    (hr1 : outcomeOk (env.rollbackResp n1) = true)
    (hr2 : outcomeOk (env.rollbackResp n2) = true)
    (hr3 : outcomeOk (env.rollbackResp n3) = true) :
    sync_streams_with_ingesters env [n1, n2, n3] =
      ([.createAttempt n1.domain_name, .createAttempt n2.domain_name,
        .rollbackAttempt n1.domain_name, .rollbackAttempt n2.domain_name,
        .rollbackAttempt n3.domain_name], .error syncFailureError) := by
  obtain ⟨e, he⟩ := send_sync_err hl2 hc2
  have h1 := send_sync_ok hl1 hc1
  have r1 := send_rollback_ok hrl1 hr1
  have r2 := send_rollback_ok hrl2 hr2
  have r3 := send_rollback_ok hrl3 hr3
  simp [sync_streams_with_ingesters, syncForward, syncRollback, h1, he, r1, r2, r3]

/-- Witness for C1's amended theorem: a concrete three-node run where node
2's create fails and all rollbacks succeed. -/
theorem C1_amended_sync_failure_rolls_back_all_witness :
    sync_streams_with_ingesters
        ⟨fun _ => true,
          fun i => if i.domain_name == "http://n2/" then .response 500 ""
            else .response 200 "",
          fun _ => true, fun _ => .response 200 ""⟩
        [⟨"http://n1/", ""⟩, ⟨"http://n2/", ""⟩, ⟨"http://n3/", ""⟩] =
      ([.createAttempt "http://n1/", .createAttempt "http://n2/",
        .rollbackAttempt "http://n1/", .rollbackAttempt "http://n2/",
        .rollbackAttempt "http://n3/"], .error syncFailureError) :=
  C1_amended_sync_failure_rolls_back_all
    ⟨fun _ => true,
      fun i => if i.domain_name == "http://n2/" then .response 500 ""
        else .response 200 "",
      fun _ => true, fun _ => .response 200 ""⟩
    ⟨"http://n1/", ""⟩ ⟨"http://n2/", ""⟩ ⟨"http://n3/", ""⟩
    rfl rfl rfl rfl rfl (by decide) (by decide) (by decide) (by decide) (by decide)

/-- The two error messages of the sync coordinator differ: a rollback
failure's message never equals the forward sync-failure message. -/
lemma failed_rollback_msg_ne (s : String) :
    ("failed to rollback stream creation: " ++ s) ≠
      "Failed to sync stream with ingesters" := by
  intro h
  obtain ⟨l⟩ := s
  have h2 := congrArg String.data h
  simp [String.data_append] at h2

lemma send_rollback_events (env : SyncEnv) (i : IngesterMetadata) :
    (send_stream_rollback_request env i).1 = [] ∨
    (send_stream_rollback_request env i).1 = [.rollbackAttempt i.domain_name] := by
  rw [send_stream_rollback_request]
  cases h : env.rollbackLiveness i <;> simp

lemma send_rollback_error_ne (env : SyncEnv) (i : IngesterMetadata) (e : StreamError)
    (h : (send_stream_rollback_request env i).2 = .error e) : e ≠ syncFailureError := by
  rw [send_stream_rollback_request] at h
  cases hl : env.rollbackLiveness i
  · rw [hl] at h
    simp at h
  · rw [hl] at h
    cases hc : env.rollbackResp i with
    | transportError e2 =>
      rw [hc] at h
      simp at h
      subst h
      simp [syncFailureError]
    | response status body =>
      rw [hc] at h
      by_cases hs : statusIsSuccess status
      · simp [hs] at h
      · simp [hs] at h
        subst h
        intro hcontra
        rw [syncFailureError] at hcontra
        injection hcontra with h1 h2
        exact failed_rollback_msg_ne (i.domain_name ++ ("\nResponse Returned: " ++ body))
          (by simpa [String.append_assoc] using h1)

lemma syncRollback_error_ne (env : SyncEnv) (nodes : List IngesterMetadata)
    (e : StreamError) (h : (syncRollback env nodes).2 = .error e) :
    e ≠ syncFailureError := by
  induction nodes with
  | nil => simp [syncRollback] at h
  | cons i t ih =>
    rw [syncRollback] at h
    cases hr : (send_stream_rollback_request env i).2 with
    | ok u =>
      rw [hr] at h
      simp at h
      exact ih h
    | error e2 =>
      rw [hr] at h
      simp at h
      subst h
      exact send_rollback_error_ne env i e2 hr

lemma syncRollback_count (env : SyncEnv) (nodes : List IngesterMetadata) (d : String) :
    ((syncRollback env nodes).1.count (Event.rollbackAttempt d)) ≤
      ((nodes.map IngesterMetadata.domain_name).count d) := by
  induction nodes with
  | nil => simp [syncRollback]
  | cons i t ih =>
    rw [syncRollback]
    by_cases hd : d = i.domain_name
    · subst hd
      rcases send_rollback_events env i with h | h <;>
        cases hr : (send_stream_rollback_request env i).2 <;>
        simp [h, List.count_cons, List.count_append] <;>
        omega
    · have hne : (Event.rollbackAttempt d) ≠ (Event.rollbackAttempt i.domain_name) := by
        simpa using hd
      rcases send_rollback_events env i with h | h <;>
        cases hr : (send_stream_rollback_request env i).2 <;>
        simp [h, List.count_cons, List.count_append, hd, hne, beq_iff_eq] <;>
        omega

/-- Claim C9: when the forward sync failed and some rollback call fails, the
rollback failure is what `sync_streams_with_ingesters` returns — an error
distinct from the forward sync-failure error — and no node receives more
rollback calls than its occurrences in the node list (no automatic retry). -/
theorem C9_rollback_failure_surfaces (env : SyncEnv) (nodes : List IngesterMetadata)
    (e : StreamError)
    (hf : (syncForward env nodes).2 = true)
    (hr : (syncRollback env nodes).2 = .error e) :
    (sync_streams_with_ingesters env nodes).2 = .error e ∧
    e ≠ syncFailureError ∧
    ∀ d, ((sync_streams_with_ingesters env nodes).1.count (Event.rollbackAttempt d)) ≤
      ((nodes.map IngesterMetadata.domain_name).count d) := by
  refine ⟨?_, syncRollback_error_ne env nodes e hr, ?_⟩
  · simp [sync_streams_with_ingesters, hf, hr]
  · intro d
    simp only [sync_streams_with_ingesters, hf, if_true]
    rw [hr]
    simp only [List.count_append]
    rw [List.count_eq_zero.mpr (syncForward_no_rollback_events env nodes d)]
    simpa using syncRollback_count env nodes d

/-- Environment for C9's witness: one node, reachable; its create call
returns 500 and its rollback call dies with a transport error. -/
def envC9 : SyncEnv :=
  ⟨fun _ => true, fun _ => .response 500 "", fun _ => true,
    fun _ => .transportError ⟨"connection refused"⟩⟩

/-- Witness for C9 at the concrete one-node run of `envC9`. -/
theorem C9_rollback_failure_surfaces_witness :
    (sync_streams_with_ingesters envC9 [⟨"http://n1/", ""⟩]).2 =
      .error (.Network ⟨"connection refused"⟩) ∧
    (StreamError.Network ⟨"connection refused"⟩) ≠ syncFailureError ∧
    ((sync_streams_with_ingesters envC9 [⟨"http://n1/", ""⟩]).1.count
        (Event.rollbackAttempt "http://n1/")) ≤
      (([⟨"http://n1/", ""⟩] : List IngesterMetadata).map
        IngesterMetadata.domain_name).count "http://n1/" :=
  ⟨(C9_rollback_failure_surfaces envC9 [⟨"http://n1/", ""⟩]
      (.Network ⟨"connection refused"⟩) rfl rfl).1,
    (C9_rollback_failure_surfaces envC9 [⟨"http://n1/", ""⟩]
      (.Network ⟨"connection refused"⟩) rfl rfl).2.1,
    (C9_rollback_failure_surfaces envC9 [⟨"http://n1/", ""⟩]
      (.Network ⟨"connection refused"⟩) rfl rfl).2.2 "http://n1/"⟩

end Parseable
